import Mathlib

/-!
Shallow embedding of the CHIP-8 emulator core (`src/main.rs`) and proofs
about the claims of its specification.

The machine state mirrors the Rust struct `Chip8` field by field; fixed-size
arrays become `List Nat` of the corresponding length, `u8`/`u16` values become
`Nat` with explicit `% 256` where the source relies on wrapping arithmetic.
`emulate_cycle` takes the random byte drawn by opcode `0xCXNN` as an explicit
parameter, since that is the only nondeterministic input of a cycle.
-/

set_option maxRecDepth 10000

/-- Machine state, mirroring `struct Chip8` in `src/main.rs`. -/
structure Chip8 where
  memory : List Nat      -- `[u8; 4096]`
  v : List Nat           -- `[u8; 16]`, general purpose registers
  i : Nat                -- index register, `u16`
  pc : Nat               -- program counter, `u16`
  screen : List Nat      -- `[u8; 64 * 32]`
  draw_flag : Bool
  halt_flag : Bool
  halt_reg : Nat         -- `u8`
  delay_timer : Nat      -- `u8`
  sound_timer : Nat      -- `u8`
  stack : List Nat       -- `[u16; 16]`
  sp : Nat               -- stack pointer, `u16`
  key : List Nat         -- `[u8; 16]`
  deriving DecidableEq, Repr

def FIRST_NIBBLE_MASK : Nat := 0xF000
def SECOND_NIBBLE_MASK : Nat := 0x0F00
def THIRD_NIBBLE_MASK : Nat := 0x00F0
def FOURTH_NIBBLE_MASK : Nat := 0x000F
def LAST_TWO_MASK : Nat := 0x00FF
def LAST_THREE_MASK : Nat := 0x0FFF

/-- `Chip8::new()`: zero-initialized state with `pc = 512`. -/
def Chip8.new : Chip8 where
  memory := List.replicate 4096 0
  v := List.replicate 16 0
  i := 0
  pc := 512
  screen := List.replicate 2048 0
  draw_flag := false
  halt_flag := false
  halt_reg := 0
  delay_timer := 0
  sound_timer := 0
  stack := List.replicate 16 0
  sp := 0
  key := List.replicate 16 0

/-- `next_instruction`: `self.pc += 2`. -/
def next_instruction (s : Chip8) : Chip8 := { s with pc := s.pc + 2 }

/-- `read_opcode`: big-endian combination `(memory[pc] << 8) | memory[pc+1]`. -/
def read_opcode (s : Chip8) : Nat :=
  (s.memory.getD s.pc 0 <<< 8) ||| s.memory.getD (s.pc + 1) 0

/-- Wrapping `u8` subtraction `a.overflowing_sub(b).0` on byte values. -/
def sub8 (a b : Nat) : Nat := (a % 256 + (256 - b % 256)) % 256

/-- One sprite bit written at linear `index` (draw loop body, `main.rs` 433-445):
skipped entirely when `index >= 2048`, otherwise the collision flag is raised
when the cell was set, and the cell is XORed with 1.  The accumulator pairs
the screen buffer with the collision flag value for `v[0xF]`. -/
def drawPixel (index : Nat) (acc : List Nat × Nat) : List Nat × Nat :=
  if 2048 ≤ index then acc
  else
    (acc.1.set index ((acc.1.getD index 0).xor 1),
     if acc.1.getD index 0 = 1 then 1 else acc.2)

/-- One sprite row (`for xline in 0..8`, `main.rs` 429-447): bit `7 - xline` of
`pixel_line` selects whether the pixel at `x + xline + ybase * 64` is drawn. -/
def drawLine (x ybase pixel_line : Nat) (acc0 : List Nat × Nat) : List Nat × Nat :=
  (List.range 8).foldl
    (fun acc xline =>
      if (pixel_line >>> (7 - xline)) &&& 1 ≠ 0 then
        drawPixel (x + xline + ybase * 64) acc
      else acc)
    acc0

/-- The full sprite loop (`for yline in 0..height`, `main.rs` 425-448). -/
def drawSprite (mem : List Nat) (i x y height : Nat) (acc0 : List Nat × Nat) :
    List Nat × Nat :=
  (List.range height).foldl
    (fun acc yline => drawLine x (y + yline) (mem.getD (i + yline) 0) acc)
    acc0

/-- `0xFX55` loop (`main.rs` 531-533): `for n in 0..x { memory[i + n] = v[n] }`.
Note the exclusive upper bound, exactly as in the source. -/
def storeRegs (mem : List Nat) (i : Nat) (v : List Nat) (x : Nat) : List Nat :=
  (List.range x).foldl (fun m n => m.set (i + n) (v.getD n 0)) mem

/-- `0xFX65` loop (`main.rs` 538-540): `for n in 0..x { v[n] = memory[i + n] }`. -/
def loadRegs (v : List Nat) (mem : List Nat) (i : Nat) (x : Nat) : List Nat :=
  (List.range x).foldl (fun vs n => vs.set n (mem.getD (i + n) 0)) v

/-- Decode-and-execute of one opcode (`main.rs` 204-549), with the random
`u16` of the `0xCXNN` branch passed in as `rand`.  The Rust `match` on masked
nibbles becomes a chain of equality tests on the same masks. -/
def execute (rand opcode : Nat) (s : Chip8) : Chip8 :=
  let fam := opcode &&& FIRST_NIBBLE_MASK
  if fam = 0x0000 then
    if opcode &&& FOURTH_NIBBLE_MASK = 0x0000 then
      next_instruction { s with screen := List.replicate 2048 0 }
    else if opcode &&& FOURTH_NIBBLE_MASK = 0x000E then
      next_instruction { s with pc := s.stack.getD s.sp 0, sp := s.sp - 1 }
    else s
  else if fam = 0x1000 then
    { s with pc := opcode &&& LAST_THREE_MASK }
  else if fam = 0x2000 then
    { s with sp := s.sp + 1,
             stack := s.stack.set (s.sp + 1) s.pc,
             pc := opcode &&& LAST_THREE_MASK }
  else if fam = 0x3000 then
    let x := (opcode &&& SECOND_NIBBLE_MASK) >>> 8
    let kk := opcode &&& LAST_TWO_MASK
    next_instruction (if s.v.getD x 0 = kk then next_instruction s else s)
  else if fam = 0x4000 then
    let x := (opcode &&& SECOND_NIBBLE_MASK) >>> 8
    let kk := opcode &&& LAST_TWO_MASK
    next_instruction (if s.v.getD x 0 ≠ kk then next_instruction s else s)
  else if fam = 0x5000 then
    let x := (opcode &&& SECOND_NIBBLE_MASK) >>> 8
    let y := (opcode &&& THIRD_NIBBLE_MASK) >>> 4
    next_instruction (if s.v.getD x 0 = s.v.getD y 0 then next_instruction s else s)
  else if fam = 0x6000 then
    let x := (opcode &&& SECOND_NIBBLE_MASK) >>> 8
    let kk := opcode &&& LAST_TWO_MASK
    next_instruction { s with v := s.v.set x kk }
  else if fam = 0x7000 then
    let x := (opcode &&& SECOND_NIBBLE_MASK) >>> 8
    let kk := opcode &&& LAST_TWO_MASK
    next_instruction { s with v := s.v.set x ((s.v.getD x 0 + kk) % 256) }
  else if fam = 0x8000 then
    let x := (opcode &&& SECOND_NIBBLE_MASK) >>> 8
    let y := (opcode &&& THIRD_NIBBLE_MASK) >>> 4
    next_instruction (
      if opcode &&& FOURTH_NIBBLE_MASK = 0x0000 then
        { s with v := s.v.set x (s.v.getD y 0) }
      else if opcode &&& FOURTH_NIBBLE_MASK = 0x0001 then
        { s with v := s.v.set x (s.v.getD x 0 ||| s.v.getD y 0) }
      else if opcode &&& FOURTH_NIBBLE_MASK = 0x0002 then
        { s with v := s.v.set x (s.v.getD x 0 &&& s.v.getD y 0) }
      else if opcode &&& FOURTH_NIBBLE_MASK = 0x0003 then
        { s with v := s.v.set x ((s.v.getD x 0).xor (s.v.getD y 0)) }
      else if opcode &&& FOURTH_NIBBLE_MASK = 0x0004 then
        let sum := s.v.getD x 0 + s.v.getD y 0
        let v1 := s.v.set x (sum % 256)
        { s with v := v1.set 15 (if 256 ≤ sum then 1 else 0) }
      else if opcode &&& FOURTH_NIBBLE_MASK = 0x0005 then
        let v1 := s.v.set 15 (if s.v.getD y 0 < s.v.getD x 0 then 1 else 0)
        { s with v := v1.set x (sub8 (v1.getD x 0) (v1.getD y 0)) }
      else if opcode &&& FOURTH_NIBBLE_MASK = 0x0006 then
        -- source slip kept: tests bit 7 of the OPCODE, not of v[x], and
        -- never clears the flag (`main.rs` 342-345)
        let v1 := if opcode &&& 0b10000000 = 0b10000000 then s.v.set 15 1 else s.v
        { s with v := v1.set x (v1.getD x 0 >>> 1) }
      else if opcode &&& FOURTH_NIBBLE_MASK = 0x0007 then
        let v1 := s.v.set 15 (if s.v.getD x 0 < s.v.getD y 0 then 1 else 0)
        { s with v := v1.set x (sub8 (v1.getD y 0) (v1.getD x 0)) }
      else if opcode &&& FOURTH_NIBBLE_MASK = 0x000E then
        -- source slip kept: tests bit 0 of the OPCODE (`main.rs` 361-364)
        let v1 := if opcode &&& 0b00000001 = 0b00000001 then s.v.set 15 1 else s.v
        { s with v := v1.set x ((v1.getD x 0 <<< 1) % 256) }
      else s)
  else if fam = 0x9000 then
    let x := (opcode &&& SECOND_NIBBLE_MASK) >>> 8
    let y := (opcode &&& THIRD_NIBBLE_MASK) >>> 4
    next_instruction (if s.v.getD x 0 ≠ s.v.getD y 0 then next_instruction s else s)
  else if fam = 0xA000 then
    next_instruction { s with i := opcode &&& LAST_THREE_MASK }
  else if fam = 0xB000 then
    { s with pc := (opcode &&& LAST_THREE_MASK) + s.v.getD 0 0 }
  else if fam = 0xC000 then
    let x := (opcode &&& SECOND_NIBBLE_MASK) >>> 8
    let n := opcode &&& LAST_TWO_MASK
    next_instruction { s with v := s.v.set x (rand &&& n) }
  else if fam = 0xD000 then
    let x := s.v.getD ((opcode &&& SECOND_NIBBLE_MASK) >>> 8) 0
    let y := s.v.getD ((opcode &&& THIRD_NIBBLE_MASK) >>> 4) 0
    let height := opcode &&& FOURTH_NIBBLE_MASK
    -- v[0xF] is cleared before the loop and raised on collision inside it;
    -- the loop's collision flag is threaded through the accumulator
    let res := drawSprite s.memory s.i x y height (s.screen, 0)
    next_instruction { s with draw_flag := true, v := s.v.set 15 res.2, screen := res.1 }
  else if fam = 0xE000 then
    let x := (opcode &&& SECOND_NIBBLE_MASK) >>> 8
    if opcode &&& LAST_TWO_MASK = 0x009E then
      next_instruction (if s.key.getD (s.v.getD x 0) 0 = 1 then next_instruction s else s)
    else if opcode &&& LAST_TWO_MASK = 0x00A1 then
      next_instruction (if s.key.getD (s.v.getD x 0) 0 = 0 then next_instruction s else s)
    else s
  else if fam = 0xF000 then
    let x := (opcode &&& SECOND_NIBBLE_MASK) >>> 8
    if opcode &&& LAST_TWO_MASK = 0x0007 then
      next_instruction { s with v := s.v.set x s.delay_timer }
    else if opcode &&& LAST_TWO_MASK = 0x000A then
      -- source slip kept: the halt register is recomputed from the THIRD
      -- nibble mask shifted by 8 (`main.rs` 490), which is always 0
      next_instruction { s with halt_flag := true,
                                halt_reg := (opcode &&& THIRD_NIBBLE_MASK) >>> 8 }
    else if opcode &&& LAST_TWO_MASK = 0x0015 then
      next_instruction { s with delay_timer := s.v.getD x 0 }
    else if opcode &&& LAST_TWO_MASK = 0x0018 then
      next_instruction { s with sound_timer := s.v.getD x 0 }
    else if opcode &&& LAST_TWO_MASK = 0x001E then
      next_instruction { s with i := s.i + s.v.getD x 0 }
    else if opcode &&& LAST_TWO_MASK = 0x0029 then
      next_instruction { s with i := s.v.getD x 0 * 5 }
    else if opcode &&& LAST_TWO_MASK = 0x0033 then
      let bcd := s.v.getD x 0
      let m3 := ((s.memory.set s.i (bcd / 100)).set (s.i + 1) (bcd / 10 % 10)).set (s.i + 2) (bcd % 100 % 10)
      next_instruction { s with memory := m3 }
    else if opcode &&& LAST_TWO_MASK = 0x0055 then
      next_instruction { s with memory := storeRegs s.memory s.i s.v x }
    else if opcode &&& LAST_TWO_MASK = 0x0065 then
      next_instruction { s with v := loadRegs s.v s.memory s.i x }
    else s
  else s

/-- Cycle epilogue (`main.rs` 551-571): each timer decrements when positive,
and the draw flag, consumed by the renderer, ends every cycle cleared. -/
def endCycle (s : Chip8) : Chip8 :=
  { s with
    delay_timer := if 0 < s.delay_timer then s.delay_timer - 1 else s.delay_timer,
    sound_timer := if 0 < s.sound_timer then s.sound_timer - 1 else s.sound_timer,
    draw_flag := false }

/-- `emulate_cycle` (`main.rs` 190-573): no-op while halted, otherwise
fetch, execute, then run the timer/draw-flag epilogue. -/
def emulate_cycle (rand : Nat) (s : Chip8) : Chip8 :=
  if s.halt_flag then s
  else endCycle (execute rand (read_opcode s) s)

/-- The byte-copy loop of `load_rom` (`main.rs` 124-129): bytes are written
one by one from index 512 upward; an index beyond the 4096-byte memory is the
out-of-bounds panic, returned as `Except.error` carrying the memory as
mutated so far. -/
def loadRomAux : List Nat → Nat → List Nat → Except (List Nat) (List Nat)
  | [], _, mem => Except.ok mem
  | b :: rest, idx, mem =>
    if idx < 4096 then loadRomAux rest (idx + 1) (mem.set idx b)
    else Except.error mem

/-- `load_rom` (`main.rs` 122-135) on the byte sequence read from the file. -/
def load_rom (mem : List Nat) (rom : List Nat) : Except (List Nat) (List Nat) :=
  loadRomAux rom 512 mem

/-- The memory contents after a load, whether or not it panicked. -/
def loadResultMem : Except (List Nat) (List Nat) → List Nat
  | Except.ok m => m
  | Except.error m => m

/-- `set_key` (`main.rs` 116-119). -/
def set_key (s : Chip8) (k value : Nat) : Chip8 := { s with key := s.key.set k value }

/-- Key-event handling of the main loop (`main.rs` 658-670): the key state is
recorded, and if the machine is halted the key value is written into
`v[halt_reg]` and the halt flag is cleared. -/
def resolve_key (s : Chip8) (k state : Nat) : Chip8 :=
  let s1 := set_key s k state
  if s1.halt_flag then { s1 with v := s1.v.set s1.halt_reg k, halt_flag := false }
  else s1

/-- A state like `s` whose memory additionally holds the given bytes at the
given addresses (used to build concrete test states). -/
def stateWith (writes : List (Nat × Nat)) (s : Chip8) : Chip8 :=
  { s with memory := writes.foldl (fun m p => m.set p.1 p.2) s.memory }

/-! ### Concrete states used by witnesses and counterexamples -/

/-- `0xF50A` (wait for key, target register 5) at the entry point. -/
def c1state : Chip8 := stateWith [(512, 0xF5), (513, 0x0A)] Chip8.new

/-- `0x1001` (jump to the odd address 1) at the entry point. -/
def c2jumpState : Chip8 := stateWith [(512, 0x10), (513, 0x01)] Chip8.new

/-- `0x6005` (load register 0 with 5) at the entry point. -/
def c2loadState : Chip8 := stateWith [(512, 0x60), (513, 0x05)] Chip8.new

/-- `0xD011` drawing the 1-row sprite `0xC0` at screen position (63, 0). -/
def c3state : Chip8 :=
  { stateWith [(512, 0xD0), (513, 0x11), (700, 0xC0)] Chip8.new with
    i := 700, v := (List.replicate 16 0).set 0 63 }

/-- `0xD000` (draw with height 0) at the entry point. -/
def c3heightZeroState : Chip8 := stateWith [(512, 0xD0), (513, 0x00)] Chip8.new

/-- `0xF255` with `i = 1000` and registers 0,1,2 holding 7,8,9. -/
def c4state : Chip8 :=
  { stateWith [(512, 0xF2), (513, 0x55)] Chip8.new with
    i := 1000, v := (((List.replicate 16 0).set 0 7).set 1 8).set 2 9 }

/-- `0xF265` with `i = 1000` and memory 1000..1002 holding 21,22,23. -/
def c4state65 : Chip8 :=
  { stateWith [(512, 0xF2), (513, 0x65), (1000, 21), (1001, 22), (1002, 23)] Chip8.new with
    i := 1000 }

/-- `0x8106` (shift right register 1) with `v[1] = 0x80` (high bit set). -/
def c5state : Chip8 :=
  { stateWith [(512, 0x81), (513, 0x06)] Chip8.new with
    v := (List.replicate 16 0).set 1 0x80 }

/-- The unknown sub-opcode `0x0001` at the entry point. -/
def c7state : Chip8 := stateWith [(512, 0x00), (513, 0x01)] Chip8.new

/-- `0x2208` (call 0x208 = 520) at the entry point and `0x00EE` at 520. -/
def c8state : Chip8 := stateWith [(512, 0x22), (513, 0x08), (520, 0x00), (521, 0xEE)] Chip8.new

/-- A halted machine state. -/
def c9state : Chip8 := { Chip8.new with halt_flag := true }

/-- Characterization of the unknown sub-opcodes of `emulate_cycle`: the
values that reach one of the `_ =>` arms of the source's sub-matches
(`main.rs` 223, 366, 472-474, 543).  Every leading nibble has a match arm,
so only sub-codes can be unknown. -/
def UnknownSubopcode (op : Nat) : Prop :=
  (op &&& FIRST_NIBBLE_MASK = 0x0000 ∧ op &&& FOURTH_NIBBLE_MASK ≠ 0x0000 ∧
    op &&& FOURTH_NIBBLE_MASK ≠ 0x000E) ∨
  (op &&& FIRST_NIBBLE_MASK = 0x8000 ∧ op &&& FOURTH_NIBBLE_MASK ≠ 0x0000 ∧
    op &&& FOURTH_NIBBLE_MASK ≠ 0x0001 ∧ op &&& FOURTH_NIBBLE_MASK ≠ 0x0002 ∧
    op &&& FOURTH_NIBBLE_MASK ≠ 0x0003 ∧ op &&& FOURTH_NIBBLE_MASK ≠ 0x0004 ∧
    op &&& FOURTH_NIBBLE_MASK ≠ 0x0005 ∧ op &&& FOURTH_NIBBLE_MASK ≠ 0x0006 ∧
    op &&& FOURTH_NIBBLE_MASK ≠ 0x0007 ∧ op &&& FOURTH_NIBBLE_MASK ≠ 0x000E) ∨
  (op &&& FIRST_NIBBLE_MASK = 0xE000 ∧ op &&& LAST_TWO_MASK ≠ 0x009E ∧
    op &&& LAST_TWO_MASK ≠ 0x00A1) ∨
  (op &&& FIRST_NIBBLE_MASK = 0xF000 ∧ op &&& LAST_TWO_MASK ≠ 0x0007 ∧
    op &&& LAST_TWO_MASK ≠ 0x000A ∧ op &&& LAST_TWO_MASK ≠ 0x0015 ∧
    op &&& LAST_TWO_MASK ≠ 0x0018 ∧ op &&& LAST_TWO_MASK ≠ 0x001E ∧
    op &&& LAST_TWO_MASK ≠ 0x0029 ∧ op &&& LAST_TWO_MASK ≠ 0x0033 ∧
    op &&& LAST_TWO_MASK ≠ 0x0055 ∧ op &&& LAST_TWO_MASK ≠ 0x0065)

instance (op : Nat) : Decidable (UnknownSubopcode op) := by
  unfold UnknownSubopcode
  infer_instance

/-! ### Helper lemmas -/

lemma getD_set_ne (l : List Nat) (i j a : Nat) (h : i ≠ j) :
    (l.set i a).getD j 0 = l.getD j 0 := by
  simp [List.getD_eq_getElem?_getD, List.getElem?_set_ne h]

lemma getD_set_self (l : List Nat) (i a : Nat) (h : i < l.length) :
    (l.set i a).getD i 0 = a := by
  simp [List.getD_eq_getElem?_getD, List.getElem?_set_self h]

lemma endCycle_pc (s : Chip8) : (endCycle s).pc = s.pc := rfl

lemma endCycle_sp (s : Chip8) : (endCycle s).sp = s.sp := rfl

lemma endCycle_stack (s : Chip8) : (endCycle s).stack = s.stack := rfl

lemma endCycle_memory (s : Chip8) : (endCycle s).memory = s.memory := rfl

lemma endCycle_halt_flag (s : Chip8) : (endCycle s).halt_flag = s.halt_flag := rfl

lemma endCycle_screen (s : Chip8) : (endCycle s).screen = s.screen := rfl

lemma read_opcode_endCycle (s : Chip8) : read_opcode (endCycle s) = read_opcode s := rfl

/-! ### C9 -/

lemma halted_noop (rand : Nat) (s : Chip8) (h : s.halt_flag = true) :
    emulate_cycle rand s = s := by
  simp [emulate_cycle, h]

/-- C9: whenever the halt flag is set, `emulate_cycle` changes no field of
the machine state at all — in particular the timers do not decrement. -/
theorem C9_halted_step_noop (rand : Nat) (s : Chip8) (h : s.halt_flag = true) :
    emulate_cycle rand s = s := by
  simp [emulate_cycle, h]

/-- C9 witness: the theorem applied to a concrete halted state. -/
theorem C9_halted_step_noop_witness : emulate_cycle 0 c9state = c9state :=
  C9_halted_step_noop 0 c9state rfl

/-! ### C10 -/

lemma execute_rand_irrelevant (r1 r2 opcode : Nat) (s : Chip8)
    (h : opcode &&& FIRST_NIBBLE_MASK ≠ 0xC000) :
    execute r1 opcode s = execute r2 opcode s := by
  by_cases h0 : opcode &&& FIRST_NIBBLE_MASK = 0x0000
  · simp only [execute, h0, reduceIte, Nat.reduceEqDiff]
  by_cases h1 : opcode &&& FIRST_NIBBLE_MASK = 0x1000
  · simp only [execute, h1, reduceIte, Nat.reduceEqDiff]
  by_cases h2 : opcode &&& FIRST_NIBBLE_MASK = 0x2000
  · simp only [execute, h2, reduceIte, Nat.reduceEqDiff]
  by_cases h3 : opcode &&& FIRST_NIBBLE_MASK = 0x3000
  · simp only [execute, h3, reduceIte, Nat.reduceEqDiff]
  by_cases h4 : opcode &&& FIRST_NIBBLE_MASK = 0x4000
  · simp only [execute, h4, reduceIte, Nat.reduceEqDiff]
  by_cases h5 : opcode &&& FIRST_NIBBLE_MASK = 0x5000
  · simp only [execute, h5, reduceIte, Nat.reduceEqDiff]
  by_cases h6 : opcode &&& FIRST_NIBBLE_MASK = 0x6000
  · simp only [execute, h6, reduceIte, Nat.reduceEqDiff]
  by_cases h7 : opcode &&& FIRST_NIBBLE_MASK = 0x7000
  · simp only [execute, h7, reduceIte, Nat.reduceEqDiff]
  by_cases h8 : opcode &&& FIRST_NIBBLE_MASK = 0x8000
  · simp only [execute, h8, reduceIte, Nat.reduceEqDiff]
  by_cases h9 : opcode &&& FIRST_NIBBLE_MASK = 0x9000
  · simp only [execute, h9, reduceIte, Nat.reduceEqDiff]
  by_cases hA : opcode &&& FIRST_NIBBLE_MASK = 0xA000
  · simp only [execute, hA, reduceIte, Nat.reduceEqDiff]
  by_cases hB : opcode &&& FIRST_NIBBLE_MASK = 0xB000
  · simp only [execute, hB, reduceIte, Nat.reduceEqDiff]
  by_cases hD : opcode &&& FIRST_NIBBLE_MASK = 0xD000
  · simp only [execute, hD, reduceIte, Nat.reduceEqDiff]
  by_cases hE : opcode &&& FIRST_NIBBLE_MASK = 0xE000
  · simp only [execute, hE, reduceIte, Nat.reduceEqDiff]
  by_cases hF : opcode &&& FIRST_NIBBLE_MASK = 0xF000
  · simp only [execute, hF, reduceIte, Nat.reduceEqDiff]
  simp only [execute, h0, h1, h2, h3, h4, h5, h6, h7, h8, h9, hA, hB, h, hD, hE, hF,
    reduceIte, Nat.reduceEqDiff, ite_true, ite_false]

/-- C10: when the current instruction's leading nibble is not 0xC, the cycle
is deterministic — the result does not depend on the random byte. -/
theorem C10_deterministic_without_random (r1 r2 : Nat) (s : Chip8)
    (h : read_opcode s &&& FIRST_NIBBLE_MASK ≠ 0xC000) :
    emulate_cycle r1 s = emulate_cycle r2 s := by
  unfold emulate_cycle
  split_ifs
  · rfl
  · rw [execute_rand_irrelevant r1 r2 _ s h]

/-- C10 witness: two different random inputs give the same result on a
concrete non-0xC instruction. -/
theorem C10_deterministic_without_random_witness :
    emulate_cycle 3 c2loadState = emulate_cycle 99 c2loadState :=
  C10_deterministic_without_random 3 99 c2loadState (by decide)

/-! ### C1 -/

/-- C1 code bug: executing `0xF50A` sets `halt_reg` to 0 instead of 5
(`main.rs` 490 recomputes the register index with the wrong mask/shift), so
the resolved key value 7 lands in register 0 and register 5 stays 0.  The
halting, the no-op stepping while halted, and the resumption all behave as
claimed; only the target register is wrong. -/
theorem C1_halt_register_bug :
    (emulate_cycle 0 c1state).halt_flag = true ∧
    (emulate_cycle 0 c1state).halt_reg = 0 ∧
    emulate_cycle 0 (emulate_cycle 0 c1state) = emulate_cycle 0 c1state ∧
    (resolve_key (emulate_cycle 0 c1state) 7 1).halt_flag = false ∧
    (resolve_key (emulate_cycle 0 c1state) 7 1).v.getD 5 0 = 0 ∧
    (resolve_key (emulate_cycle 0 c1state) 7 1).v.getD 0 0 = 7 :=
  ⟨by decide, by decide, halted_noop 0 _ (by decide), by decide, by decide, by decide⟩

/-! ### C4 -/

/-- C4 code bug: `0xF255` copies only registers 0 and 1 into memory (the
loop bound `0..x` is exclusive), leaving `memory[i+2]` untouched, and
`0xF265` likewise loads only registers 0 and 1, leaving register 2 at 0 —
the claim (and the code's own log text "V0 through Vx") requires x+1
transfers. -/
theorem C4_register_block_copy_bug :
    (emulate_cycle 0 c4state).memory.getD 1000 0 = 7 ∧
    (emulate_cycle 0 c4state).memory.getD 1001 0 = 8 ∧
    (emulate_cycle 0 c4state).memory.getD 1002 0 = 0 ∧
    (emulate_cycle 0 c4state65).v.getD 0 0 = 21 ∧
    (emulate_cycle 0 c4state65).v.getD 1 0 = 22 ∧
    (emulate_cycle 0 c4state65).v.getD 2 0 = 0 := by
  decide

/-! ### C5 -/

/-- C5 code bug: `0x8106` with `v[1] = 0x80` (most-significant bit set) must
set register 15 to 1 according to the claim, but the code tests bit 7 of the
opcode instead of `v[x]` (and never clears the flag), so register 15 stays 0
while `v[1]` is halved to 0x40. -/
theorem C5_shift_flag_bug :
    (emulate_cycle 0 c5state).v.getD 15 0 = 0 ∧
    (emulate_cycle 0 c5state).v.getD 1 0 = 0x40 := by
  decide

/-! ### C2 -/

/-- C2 counterexample: from the initialized state with the ROM bytes
`0x10 0x01` (jump to address 1) at the entry point, one cycle leaves the
program counter at the odd value 1, refuting the claim that every opcode
path (including `0x1nnn` jumps) keeps it even. -/
theorem C2_counterexample : (emulate_cycle 0 c2jumpState).pc % 2 = 1 := by
  decide

lemma pc_ite (c : Prop) [Decidable c] (a b : Chip8) (k : Nat)
    (ha : a.pc = k) (hb : b.pc = k) : (if c then a else b).pc = k := by
  by_cases h : c
  · rw [if_pos h]
    exact ha
  · rw [if_neg h]
    exact hb

set_option maxHeartbeats 1600000 in
lemma execute_pc_parity (rand opcode : Nat) (s : Chip8)
    (h0 : s.pc % 2 = 0)
    (hj1 : opcode &&& FIRST_NIBBLE_MASK ≠ 0x1000)
    (hj2 : opcode &&& FIRST_NIBBLE_MASK ≠ 0x2000)
    (hjB : opcode &&& FIRST_NIBBLE_MASK ≠ 0xB000)
    (hret : ¬(opcode &&& FIRST_NIBBLE_MASK = 0x0000 ∧
              opcode &&& FOURTH_NIBBLE_MASK = 0x000E)) :
    (execute rand opcode s).pc % 2 = 0 := by
  by_cases hc0 : opcode &&& FIRST_NIBBLE_MASK = 0x0000
  · simp only [execute, hc0, reduceIte, Nat.reduceEqDiff]
    split_ifs with hA hB
    · simp only [next_instruction]; omega
    · exact absurd ⟨hc0, hB⟩ hret
    · exact h0
  by_cases hc3 : opcode &&& FIRST_NIBBLE_MASK = 0x3000
  · simp only [execute, hc3, reduceIte, Nat.reduceEqDiff]
    split_ifs <;> simp only [next_instruction] <;> omega
  by_cases hc4 : opcode &&& FIRST_NIBBLE_MASK = 0x4000
  · simp only [execute, hc4, reduceIte, Nat.reduceEqDiff]
    split_ifs <;> simp only [next_instruction] <;> omega
  by_cases hc5 : opcode &&& FIRST_NIBBLE_MASK = 0x5000
  · simp only [execute, hc5, reduceIte, Nat.reduceEqDiff]
    split_ifs <;> simp only [next_instruction] <;> omega
  by_cases hc6 : opcode &&& FIRST_NIBBLE_MASK = 0x6000
  · simp only [execute, hc6, reduceIte, Nat.reduceEqDiff, next_instruction]; omega
  by_cases hc7 : opcode &&& FIRST_NIBBLE_MASK = 0x7000
  · simp only [execute, hc7, reduceIte, Nat.reduceEqDiff, next_instruction]; omega
  by_cases hc8 : opcode &&& FIRST_NIBBLE_MASK = 0x8000
  · simp only [execute, hc8, reduceIte, Nat.reduceEqDiff, next_instruction]
    have hgen : ∀ t : Chip8, t.pc = s.pc → (t.pc + 2) % 2 = 0 := by
      intro t ht
      omega
    apply hgen
    repeat' (first | rfl | apply pc_ite)
  by_cases hc9 : opcode &&& FIRST_NIBBLE_MASK = 0x9000
  · simp only [execute, hc9, reduceIte, Nat.reduceEqDiff]
    split_ifs <;> simp only [next_instruction] <;> omega
  by_cases hcA : opcode &&& FIRST_NIBBLE_MASK = 0xA000
  · simp only [execute, hcA, reduceIte, Nat.reduceEqDiff, next_instruction]; omega
  by_cases hcC : opcode &&& FIRST_NIBBLE_MASK = 0xC000
  · simp only [execute, hcC, reduceIte, Nat.reduceEqDiff, next_instruction]; omega
  by_cases hcD : opcode &&& FIRST_NIBBLE_MASK = 0xD000
  · simp only [execute, hcD, reduceIte, Nat.reduceEqDiff, next_instruction]; omega
  by_cases hcE : opcode &&& FIRST_NIBBLE_MASK = 0xE000
  · simp only [execute, hcE, reduceIte, Nat.reduceEqDiff]
    split_ifs <;> first | exact h0 | (simp only [next_instruction]; omega)
  by_cases hcF : opcode &&& FIRST_NIBBLE_MASK = 0xF000
  · simp only [execute, hcF, reduceIte, Nat.reduceEqDiff]
    split_ifs <;> first | exact h0 | (simp only [next_instruction]; omega)
  simp only [execute, hc0, hj1, hj2, hc3, hc4, hc5, hc6, hc7, hc8, hc9, hcA, hjB,
    hcC, hcD, hcE, hcF, reduceIte, Nat.reduceEqDiff, ite_true, ite_false]
  exact h0

/-- C2 amended: parity of the program counter is preserved by every
instruction path except those that load it directly from an
instruction-encoded address or the stack — the jumps `0x1nnn` and `0xBnnn`
and the call `0x2nnn` set it to `nnn` (plus `reg[0]` for `0xBnnn`), which
may be odd, and the return `0x00EE` restores whatever address the stack
holds; all remaining paths change the program counter by 0, 2 or 4. -/
theorem C2_pc_parity_amended (rand : Nat) (s : Chip8)
    (h0 : s.pc % 2 = 0)
    (hj1 : read_opcode s &&& FIRST_NIBBLE_MASK ≠ 0x1000)
    (hj2 : read_opcode s &&& FIRST_NIBBLE_MASK ≠ 0x2000)
    (hjB : read_opcode s &&& FIRST_NIBBLE_MASK ≠ 0xB000)
    (hret : ¬(read_opcode s &&& FIRST_NIBBLE_MASK = 0x0000 ∧
              read_opcode s &&& FOURTH_NIBBLE_MASK = 0x000E)) :
    (emulate_cycle rand s).pc % 2 = 0 := by
  unfold emulate_cycle
  split_ifs with hh
  · exact h0
  · rw [endCycle_pc]
    exact execute_pc_parity rand (read_opcode s) s h0 hj1 hj2 hjB hret

/-- C2 witness: the amended theorem applied to a concrete register-load
instruction at the (even) entry point. -/
theorem C2_pc_parity_amended_witness : (emulate_cycle 0 c2loadState).pc % 2 = 0 :=
  C2_pc_parity_amended 0 c2loadState (by decide) (by decide) (by decide) (by decide)
    (by decide)

/-! ### C7 -/

/-- C7 counterexample: the unknown sub-opcode `0x0001` at the entry point
does not advance the program counter at all (it stays at 512), refuting the
claim that every unrecognized opcode advances it by 2. -/
theorem C7_counterexample : (emulate_cycle 0 c7state).pc ≠ c7state.pc + 2 := by
  decide

/-- C7 amended: unknown sub-opcodes are indeed non-fatal — the cycle
completes and the run continues — but only the 0x8 family advances the
program counter by 2 on an unknown sub-code; unknown sub-codes of the
0x0, 0xE and 0xF families leave the program counter unchanged, so the same
instruction is fetched again on the next cycle. -/
theorem C7_unknown_subopcode_amended (rand : Nat) (s : Chip8)
    (hh : s.halt_flag = false)
    (hu : UnknownSubopcode (read_opcode s)) :
    (emulate_cycle rand s).pc =
      if read_opcode s &&& FIRST_NIBBLE_MASK = 0x8000 then s.pc + 2 else s.pc := by
  unfold emulate_cycle
  rw [if_neg (by simp [hh])]
  rw [endCycle_pc]
  rcases hu with ⟨hf, hA, hB⟩ | ⟨hf, -, -, -, -, -, -, -, -, -⟩ | ⟨hf, hA, hB⟩ |
    ⟨hf, h07, h0A, h15, h18, h1E, h29, h33, h55, h65⟩
  · simp only [execute, hf, reduceIte, Nat.reduceEqDiff]
    rw [if_neg hA, if_neg hB]
  · simp only [execute, hf, reduceIte, Nat.reduceEqDiff, next_instruction]
    repeat' (first | rfl | apply pc_ite)
  · simp only [execute, hf, reduceIte, Nat.reduceEqDiff]
    rw [if_neg hA, if_neg hB]
  · simp only [execute, hf, reduceIte, Nat.reduceEqDiff]
    rw [if_neg h07, if_neg h0A, if_neg h15, if_neg h18, if_neg h1E, if_neg h29,
      if_neg h33, if_neg h55, if_neg h65]

/-- C7 witness: the amended theorem applied to the concrete unknown
sub-opcode `0x0001`. -/
theorem C7_unknown_subopcode_amended_witness :
    (emulate_cycle 0 c7state).pc =
      if read_opcode c7state &&& FIRST_NIBBLE_MASK = 0x8000 then c7state.pc + 2
      else c7state.pc :=
  C7_unknown_subopcode_amended 0 c7state (by decide) (by decide)

/-! ### C3 -/

lemma foldl_fst_getD_const {α : Type} (f : (List Nat × Nat) → α → (List Nat × Nat))
    (l : List α) (j : Nat)
    (h : ∀ acc a, a ∈ l → ((f acc a).1.getD j 0 = acc.1.getD j 0)) :
    ∀ acc, ((l.foldl f acc).1.getD j 0 = acc.1.getD j 0) := by
  induction l with
  | nil =>
    intro acc
    rfl
  | cons a t ih =>
    intro acc
    rw [List.foldl_cons, ih (fun acc2 b hb => h acc2 b (List.mem_cons_of_mem a hb)) (f acc a)]
    exact h acc a (List.mem_cons_self a t)

lemma drawPixel_getD_ne (index j : Nat) (acc : List Nat × Nat) (h : j ≠ index) :
    (drawPixel index acc).1.getD j 0 = acc.1.getD j 0 := by
  unfold drawPixel
  split_ifs with h1 h2
  · rfl
  · exact getD_set_ne _ _ _ _ (Ne.symm h)
  · exact getD_set_ne _ _ _ _ (Ne.symm h)

lemma drawLine_getD_ne (x ybase pl j : Nat) (acc : List Nat × Nat)
    (h : ∀ xb, xb < 8 → j ≠ x + xb + ybase * 64) :
    (drawLine x ybase pl acc).1.getD j 0 = acc.1.getD j 0 := by
  unfold drawLine
  refine foldl_fst_getD_const _ _ _ ?_ acc
  intro acc2 xline hmem
  split_ifs with hbit
  · exact drawPixel_getD_ne _ _ _ (h xline (List.mem_range.mp hmem))
  · rfl

lemma drawSprite_getD_ne (mem : List Nat) (i x y height j : Nat) (acc : List Nat × Nat)
    (h : ∀ yr, yr < height → ∀ xb, xb < 8 → j ≠ x + xb + (y + yr) * 64) :
    (drawSprite mem i x y height acc).1.getD j 0 = acc.1.getD j 0 := by
  unfold drawSprite
  refine foldl_fst_getD_const _ _ _ ?_ acc
  intro acc2 yline hmem
  exact drawLine_getD_ne _ _ _ _ _ (fun xb hxb => h yline (List.mem_range.mp hmem) xb hxb)

/-- C3 counterexample: drawing the one-row sprite `0xC0` at screen position
(63, 0) writes the second sprite bit into cell 64 — row 1, column 0 — even
though its target coordinate (64, 0) lies outside the 64-wide screen: the
write wraps horizontally onto the next row instead of being discarded. -/
theorem C3_counterexample :
    c3state.screen.getD 64 0 = 0 ∧ (emulate_cycle 0 c3state).screen.getD 64 0 = 1 := by
  decide

/-- C3 amended: a sprite bit of a `0xDxyn` instruction is XORed into the
pixel buffer at the linear index `reg[x] + bit + (reg[y] + row) * 64`; only
indices ≥ 2048 (past the end of the buffer) are discarded, so horizontal
overflow wraps onto the following row rather than being discarded.  No
buffer cell outside this set of target indices changes. -/
theorem C3_draw_discard_amended (rand : Nat) (s : Chip8) (j : Nat)
    (hh : s.halt_flag = false)
    (hop : read_opcode s &&& FIRST_NIBBLE_MASK = 0xD000)
    (hj : ∀ yr, yr < read_opcode s &&& FOURTH_NIBBLE_MASK → ∀ xb, xb < 8 →
          j ≠ s.v.getD ((read_opcode s &&& SECOND_NIBBLE_MASK) >>> 8) 0 + xb +
              (s.v.getD ((read_opcode s &&& THIRD_NIBBLE_MASK) >>> 4) 0 + yr) * 64) :
    (emulate_cycle rand s).screen.getD j 0 = s.screen.getD j 0 := by
  unfold emulate_cycle
  rw [if_neg (by simp [hh])]
  rw [endCycle_screen]
  simp only [execute, hop, reduceIte, Nat.reduceEqDiff, next_instruction]
  exact drawSprite_getD_ne _ _ _ _ _ _ _ (fun yr hyr xb hxb => hj yr hyr xb hxb)

/-- C3 witness: the amended theorem applied to a concrete height-zero draw
instruction, at buffer cell 0. -/
theorem C3_draw_discard_amended_witness :
    (emulate_cycle 0 c3heightZeroState).screen.getD 0 0 =
      c3heightZeroState.screen.getD 0 0 :=
  C3_draw_discard_amended 0 c3heightZeroState 0 (by decide) (by decide)
    (by
      intro yr hyr xb hxb
      have hz : read_opcode c3heightZeroState &&& FOURTH_NIBBLE_MASK = 0 := by decide
      rw [hz] at hyr
      exact absurd hyr (Nat.not_lt_zero yr))

/-! ### C8 -/

lemma execute_call (rand opcode : Nat) (s : Chip8)
    (h : opcode &&& FIRST_NIBBLE_MASK = 0x2000) :
    execute rand opcode s =
      { s with sp := s.sp + 1, stack := s.stack.set (s.sp + 1) s.pc,
               pc := opcode &&& LAST_THREE_MASK } := by
  simp only [execute, h, reduceIte, Nat.reduceEqDiff]

lemma execute_ret (rand opcode : Nat) (s : Chip8)
    (h0 : opcode &&& FIRST_NIBBLE_MASK = 0x0000)
    (hE : opcode &&& FOURTH_NIBBLE_MASK = 0x000E) :
    execute rand opcode s =
      next_instruction { s with pc := s.stack.getD s.sp 0, sp := s.sp - 1 } := by
  simp only [execute, h0, hE, reduceIte, Nat.reduceEqDiff]

/-- C8: with room on the stack, executing a call `0x2nnn` and then, at the
called address, a return opcode (leading nibble 0, low nibble 0xE), restores
the program counter to the instruction immediately after the call and the
stack pointer to exactly its pre-call value. -/
theorem C8_call_return_roundtrip (r1 r2 : Nat) (s : Chip8)
    (hh : s.halt_flag = false)
    (hcall : read_opcode s &&& FIRST_NIBBLE_MASK = 0x2000)
    (hroom : s.sp + 1 < 16)
    (hstack : s.stack.length = 16)
    (hret0 : read_opcode (emulate_cycle r1 s) &&& FIRST_NIBBLE_MASK = 0x0000)
    (hretE : read_opcode (emulate_cycle r1 s) &&& FOURTH_NIBBLE_MASK = 0x000E) :
    (emulate_cycle r2 (emulate_cycle r1 s)).pc = s.pc + 2 ∧
    (emulate_cycle r2 (emulate_cycle r1 s)).sp = s.sp := by
  have e1 : emulate_cycle r1 s =
      endCycle { s with sp := s.sp + 1, stack := s.stack.set (s.sp + 1) s.pc,
                        pc := read_opcode s &&& LAST_THREE_MASK } := by
    unfold emulate_cycle
    rw [if_neg (by simp [hh]), execute_call r1 _ s hcall]
  rw [e1] at hret0 hretE ⊢
  rw [read_opcode_endCycle] at hret0 hretE
  unfold emulate_cycle
  rw [if_neg (by simp [endCycle_halt_flag, hh]), read_opcode_endCycle,
    execute_ret r2 _ _ hret0 hretE]
  constructor
  · simp only [endCycle_pc, endCycle_stack, endCycle_sp, next_instruction]
    rw [getD_set_self _ _ _ (by rw [hstack]; exact hroom)]
  · simp only [endCycle_sp, next_instruction]
    omega

/-- C8 witness: call `0x2208` at 512 followed by `0x00EE` at 520 brings the
program counter to 514 and the stack pointer back to 0. -/
theorem C8_call_return_roundtrip_witness :
    (emulate_cycle 0 (emulate_cycle 0 c8state)).pc = c8state.pc + 2 ∧
    (emulate_cycle 0 (emulate_cycle 0 c8state)).sp = c8state.sp :=
  C8_call_return_roundtrip 0 0 c8state (by decide) (by decide) (by decide) (by decide)
    (by decide) (by decide)

/-! ### C6 -/

lemma loadRomAux_error (rom : List Nat) :
    ∀ (idx : Nat) (mem : List Nat), 4096 < idx + rom.length → idx ≤ 4096 →
    ∃ m, loadRomAux rom idx mem = Except.error m := by
  induction rom with
  | nil =>
    intro idx mem hover hle
    simp only [List.length_nil, Nat.add_zero] at hover
    omega
  | cons b rest ih =>
    intro idx mem hover hle
    unfold loadRomAux
    split_ifs with hlt
    · exact ih (idx + 1) (mem.set idx b)
        (by simp only [List.length_cons] at hover; omega) (by omega)
    · exact ⟨mem, rfl⟩

lemma loadRomAux_preserve (rom : List Nat) :
    ∀ (idx : Nat) (mem : List Nat) (j : Nat), j < idx →
    (loadResultMem (loadRomAux rom idx mem)).getD j 0 = mem.getD j 0 := by
  induction rom with
  | nil =>
    intro idx mem j hj
    rfl
  | cons b rest ih =>
    intro idx mem j hj
    unfold loadRomAux
    split_ifs with hlt
    · rw [ih (idx + 1) (mem.set idx b) j (by omega)]
      exact getD_set_ne _ _ _ _ (by omega)
    · rfl

lemma loadRomOverflowWrites (mem : List Nat) (b : Nat) (rest : List Nat)
    (hlen : mem.length = 4096)
    (hover : 4096 < 512 + (b :: rest).length) :
    ∃ m, load_rom mem (b :: rest) = Except.error m ∧ m.getD 512 0 = b := by
  unfold load_rom
  have step : loadRomAux (b :: rest) 512 mem = loadRomAux rest 513 (mem.set 512 b) := by
    show (if 512 < 4096 then loadRomAux rest 513 (mem.set 512 b)
          else Except.error mem) = loadRomAux rest 513 (mem.set 512 b)
    rw [if_pos (by omega)]
  rw [step]
  obtain ⟨m, hm⟩ := loadRomAux_error rest 513 (mem.set 512 b)
    (by simp only [List.length_cons] at hover; omega) (by omega)
  refine ⟨m, hm, ?_⟩
  have hp := loadRomAux_preserve rest 513 (mem.set 512 b) 512 (by omega)
  rw [hm] at hp
  rw [show loadResultMem (Except.error m) = m from rfl] at hp
  rw [hp]
  exact getD_set_self _ _ _ (by rw [hlen]; omega)

/-- C6 counterexample: loading 3585 bytes (offset 512 + 3585 = 4097 > 4096)
does abort with the out-of-bounds panic, but memory is NOT identical before
and after — the in-bounds prefix has already been written (cell 512 changed
from 0 to 1), refuting the no-write-at-all part of the claim. -/
theorem C6_counterexample :
    loadResultMem (load_rom (List.replicate 4096 0) (List.replicate 3585 1)) ≠
      List.replicate 4096 0 := by
  have hrep : List.replicate 3585 1 = 1 :: List.replicate 3584 1 := rfl
  rw [hrep]
  obtain ⟨m, hm, hb⟩ := loadRomOverflowWrites (List.replicate 4096 0) 1
    (List.replicate 3584 1) (List.length_replicate 4096 0)
    (by rw [List.length_cons, List.length_replicate]; omega)
  rw [hm]
  intro hEq
  rw [show loadResultMem (Except.error m) = m from rfl] at hEq
  rw [hEq] at hb
  have hz : (List.replicate 4096 (0 : Nat)).getD 512 0 = 0 := by decide
  rw [hz] at hb
  exact absurd hb (by decide)

/-- C6 amended: when the data would extend past the 4096-byte memory
(offset 512 plus length exceeds 4096), the load is NOT rejected before any
write: the copy loop writes the in-bounds prefix one byte at a time and then
aborts with an out-of-bounds index panic, so a partial write occurs (cell
512 already holds the first byte of the data) and no error value is
returned gracefully. -/
theorem C6_load_overflow_amended (mem : List Nat) (b : Nat) (rest : List Nat)
    (hlen : mem.length = 4096)
    (hover : 4096 < 512 + (b :: rest).length) :
    ∃ m, load_rom mem (b :: rest) = Except.error m ∧ m.getD 512 0 = b :=
  loadRomOverflowWrites mem b rest hlen hover

/-- C6 witness: the amended theorem applied to 3585 bytes of value 1 loaded
into fresh memory. -/
theorem C6_load_overflow_amended_witness :
    ∃ m, load_rom (List.replicate 4096 0) (1 :: List.replicate 3584 1) = Except.error m ∧
         m.getD 512 0 = 1 :=
  C6_load_overflow_amended (List.replicate 4096 0) 1 (List.replicate 3584 1)
    (List.length_replicate 4096 0)
    (by rw [List.length_cons, List.length_replicate]; omega)
